import Mathlib

/-!
Verification of the grade-computation pipeline of the ESKWELAONE backend
(Django project: `students` app).

The numeric domain of the program is Python `Decimal` (2-decimal-place
database fields, arithmetic in the default 28-digit context).  All divisors
appearing in the program are at most 8 and all dividends are sums of at most
eight 2-decimal values, so every intermediate quotient is either exact in the
default context or is far enough (> 10⁻³ vs a context error of ~10⁻²⁵) from
every rounding boundary that the 28-digit context behaves exactly like
infinite precision.  We therefore embed `Decimal` values as exact rationals
(`ℚ`) and the program's two rounding primitives as functions on `ℚ`:

* Python `round(d, 2)` on a `Decimal` quantizes with the default context
  rounding, `ROUND_HALF_EVEN` (banker's rounding) — `round2` below;
* `Decimal.to_integral_value(rounding='ROUND_HALF_UP')` rounds ties away
  from zero — `roundHalfUpInt` below.

Database rows become Lean structures, nullable columns become `Option`,
and each Python function under scrutiny becomes a Lean function that follows
the source control flow statement by statement.

One aspect of the runtime matters beyond the stored values:
`enrollment_post_save` computes on the IN-MEMORY instance attributes, whose
Python types depend on the save path.  Instances loaded from the database
(and admin-form saves, whose form fields clean to `Decimal`) carry `Decimal`
quarters; the REST API's `EnrollmentSerializer` declares `q1..q4` as
`serializers.FloatField` (serializers.py lines 174-177), so every API
create/update leaves Python floats on the instance (Django does not coerce
attributes in memory on save).  `sum()` over a mixed Decimal/float list
raises `TypeError`, as does `float / Decimal(4)`, and the handler catches
`(TypeError, InvalidOperation)` (signals.py lines 165-166), leaving the
computed pre_final `None`.  The embedding therefore tracks, alongside each
quarter's exact value, the runtime type of the attribute (`PyNumKind`):
grade floats parsed from 2-decimal input round-trip exactly, so the values
stay exact rationals, but a float type makes the try-block fail.
-/

namespace Eskwela

/-- Rounding of a rational to the nearest integer with ties going to the even
neighbour, as performed by Python `Decimal` quantization under the default
context rounding `ROUND_HALF_EVEN`. -/
def halfEvenInt (x : ℚ) : ℤ :=
  let n : ℤ := ⌊x⌋
  let f : ℚ := x - (n : ℚ)
  if f < 1/2 then n
  else if 1/2 < f then n + 1
  else if n % 2 = 0 then n else n + 1

/-- Python `round(d, 2)` on a `Decimal`: quantize to 2 decimal places with
ties to even. -/
def round2 (x : ℚ) : ℚ := (halfEvenInt (x * 100) : ℚ) / 100

/-- Python `Decimal.to_integral_value(rounding='ROUND_HALF_UP')`: round to the
nearest integer with ties away from zero. -/
def roundHalfUpInt (x : ℚ) : ℤ :=
  if 0 ≤ x then ⌊x + 1/2⌋ else -⌊-x + 1/2⌋

/-- Rounding half-up at 2 decimal places.  This is NOT an operation of the
source code; it is the operation named by the specification sentence
"arithmetic mean rounded half-up to 2 decimal places" and is defined here
only to compare the specification's words against the program. -/
def roundHalfUp2 (x : ℚ) : ℚ := (roundHalfUpInt (x * 100) : ℚ) / 100

/-- An `Enrollment` row (students/models.py), denormalized: `subject` stands
for `teacher_class.subject.name` and `year` for `teacher_class.academic_year`,
the two attributes of the related `TeacherClass` that the grade computations
read.  Quarter scores and `pre_final` are nullable 2-decimal columns. -/
structure Enrollment where
  id : Nat
  student : Nat
  subject : String
  year : String
  q1 : Option ℚ
  q2 : Option ℚ
  q3 : Option ℚ
  q4 : Option ℚ
  pre_final : Option ℚ
  is_finalized : Bool
deriving DecidableEq, Repr

/-- The list `[instance.q1, instance.q2, instance.q3, instance.q4]` built by
`enrollment_post_save` (signals.py line 157). -/
def quarterList (e : Enrollment) : List (Option ℚ) := [e.q1, e.q2, e.q3, e.q4]

/-- Runtime Python type of a quarter attribute on the in-memory Enrollment
instance: `Decimal` (database-loaded instances, admin-form saves) or Python
`float` (set by `EnrollmentSerializer`'s `FloatField` on every API
create/update). -/
inductive PyNumKind
  | decimal
  | float
deriving DecidableEq, Repr

/-- The runtime types of the four quarter attributes of the in-memory
instance that `enrollment_post_save` reads. -/
structure QuarterKinds where
  k1 : PyNumKind
  k2 : PyNumKind
  k3 : PyNumKind
  k4 : PyNumKind
deriving DecidableEq, Repr

/-- Whether `round(sum(valid_quarters) / Decimal(4), 2)` evaluates without a
`TypeError` when all four quarters are non-null: `sum` raises as soon as a
`Decimal` and a `float` meet, and `total / Decimal(4)` raises when `total`
is a `float`, so the try-block of signals.py lines 161-166 succeeds exactly
when all four attributes are `Decimal`. -/
def allDecimal (ks : QuarterKinds) : Bool :=
  ks.k1 == PyNumKind.decimal && ks.k2 == PyNumKind.decimal &&
    ks.k3 == PyNumKind.decimal && ks.k4 == PyNumKind.decimal

/-- The quarter kinds of a database-loaded instance (admin path). -/
def decimalKinds : QuarterKinds :=
  { k1 := PyNumKind.decimal, k2 := PyNumKind.decimal,
    k3 := PyNumKind.decimal, k4 := PyNumKind.decimal }

/-- The quarter kinds after a full API save: all four set as floats by the
serializer's `FloatField`. -/
def floatKinds : QuarterKinds :=
  { k1 := PyNumKind.float, k2 := PyNumKind.float,
    k3 := PyNumKind.float, k4 := PyNumKind.float }

/-- The `pre_final` computation of `enrollment_post_save`
(signals.py lines 157-166), including the live `except (TypeError,
InvalidOperation)` branch: keep the non-null quarters; with fewer than four
of them the result is `None`; with four of them the try-block computes
`round(total / Decimal(4), 2)` (Python `round`, i.e. half-even) — but only
when all four in-memory attributes are `Decimal`; any `float` among them
(every API save) raises `TypeError`, which is caught, and the result is
`None` despite four non-null quarters. -/
def computePreFinal (e : Enrollment) (ks : QuarterKinds) : Option ℚ :=
  let valid := (quarterList e).filterMap id
  if valid.length = 4 then
    if allDecimal ks then some (round2 (valid.sum / 4)) else none
  else none

/-- C1 counterexample input: four quarters 88.13, 88.12, 88.13, 88.12 whose
mean is exactly 88.125, a rounding tie. -/
def c1Enr : Enrollment :=
  { id := 1, student := 1, subject := "Mathematics", year := "2024-2025",
    q1 := some (8813/100), q2 := some (8812/100),
    q3 := some (8813/100), q4 := some (8812/100),
    pre_final := none, is_finalized := false }

/-- C1: the claim is false twice over.  (a) Rounding: for database-loaded
Decimal quarters (88.13, 88.12, 88.13, 88.12) the claim predicts the half-up
value 88.13, but the program computes with Python `round` (half-even) and
yields 88.12.  (b) Definedness: on an API save the serializer leaves the four
non-null quarters as floats, the `sum / Decimal(4)` `TypeError` is caught,
and the program persists `None` although all four quarters are non-null. -/
theorem C1_pre_final_counterexample :
    computePreFinal c1Enr decimalKinds = some (8812/100) ∧
    roundHalfUp2 ((8813/100 + 8812/100 + 8813/100 + 8812/100 : ℚ) / 4) = 8813/100 ∧
    computePreFinal c1Enr decimalKinds ≠
      some (roundHalfUp2 ((8813/100 + 8812/100 + 8813/100 + 8812/100 : ℚ) / 4)) ∧
    (c1Enr.q1.isSome ∧ c1Enr.q2.isSome ∧ c1Enr.q3.isSome ∧ c1Enr.q4.isSome) ∧
    computePreFinal c1Enr floatKinds = none := by
  refine ⟨?_, ?_, ?_, by decide, by decide⟩
  · simp only [computePreFinal, quarterList, c1Enr, List.filterMap_cons, id,
      allDecimal, decimalKinds]
    norm_num [round2, halfEvenInt]
  · norm_num [roundHalfUp2, roundHalfUpInt]
  · simp only [computePreFinal, quarterList, c1Enr, List.filterMap_cons, id,
      allDecimal, decimalKinds]
    norm_num [round2, halfEvenInt, roundHalfUp2, roundHalfUpInt]

/-- C1 (amended): the recomputed `pre_final` is defined iff all four quarter
scores are non-null AND the four in-memory quarter attributes are Decimals
(true for database-loaded and admin saves, false for API saves, whose
serializer leaves floats and whose caught `TypeError` yields null); when
defined it equals the arithmetic mean of the four scores rounded to 2
decimal places with ties to even (Python `round` on `Decimal`); if any
quarter is null — or any attribute is a float — it is null (not zero, not an
error). -/
theorem C1_pre_final :
    ∀ (e : Enrollment) (ks : QuarterKinds),
    ((computePreFinal e ks).isSome ↔
      (e.q1.isSome ∧ e.q2.isSome ∧ e.q3.isSome ∧ e.q4.isSome) ∧ allDecimal ks = true) ∧
    (∀ a b c d : ℚ, e.q1 = some a → e.q2 = some b → e.q3 = some c → e.q4 = some d →
      allDecimal ks = true →
      computePreFinal e ks = some (round2 ((a + b + c + d) / 4))) ∧
    ((e.q1 = none ∨ e.q2 = none ∨ e.q3 = none ∨ e.q4 = none) →
      computePreFinal e ks = none) ∧
    (allDecimal ks = false → computePreFinal e ks = none) := by
  intro e ks
  refine ⟨?_, ?_, ?_, ?_⟩
  · rcases h1 : e.q1 with _ | a <;> rcases h2 : e.q2 with _ | b <;>
      rcases h3 : e.q3 with _ | c <;> rcases h4 : e.q4 with _ | d <;>
      rcases hk : allDecimal ks <;>
      simp [computePreFinal, quarterList, h1, h2, h3, h4, hk]
  · intro a b c d h1 h2 h3 h4 hk
    simp only [computePreFinal, quarterList, h1, h2, h3, h4, hk, List.filterMap, if_true]
    norm_num [List.sum_cons]
    ring_nf
  · intro h
    rcases h with h | h | h | h <;>
      rcases h1 : e.q1 with _ | a <;> rcases h2 : e.q2 with _ | b <;>
      rcases h3 : e.q3 with _ | c <;> rcases h4 : e.q4 with _ | d <;>
      simp_all [computePreFinal, quarterList]
  · intro hk
    rcases h1 : e.q1 with _ | a <;> rcases h2 : e.q2 with _ | b <;>
      rcases h3 : e.q3 with _ | c <;> rcases h4 : e.q4 with _ | d <;>
      simp [computePreFinal, quarterList, h1, h2, h3, h4, hk]

/-- C1 witness: evaluating the theorem on Decimal quarters (90, 85, 88, 92),
whose mean 88.75 is tie-free, gives pre_final 88.75. -/
theorem C1_pre_final_witness :
    computePreFinal
      { id := 2, student := 1, subject := "English", year := "2024-2025",
        q1 := some 90, q2 := some 85, q3 := some 88, q4 := some 92,
        pre_final := none, is_finalized := false } decimalKinds =
      some (round2 ((90 + 85 + 88 + 92) / 4)) :=
  (C1_pre_final _ decimalKinds).2.1 90 85 88 92 rfl rfl rfl rfl rfl

/-- The fixed list of required subjects (signals.py lines 23-26). -/
def REQUIRED_SUBJECTS : List String :=
  ["Filipino", "English", "Mathematics", "Science", "Araling Panlipunan (AP)",
   "Edukasyon sa Pagpapakatao (EsP)", "Technology and Livelihood Education (TLE)", "MAPEH"]

/-- The grade-collection loop of `calculate_and_update_student_average`
(signals.py lines 117-125): for each required subject in order, take the FIRST
enrollment bearing that subject (`next(...)`); if it is absent or its
`pre_final` is null the loop breaks and the collected list is discarded
(modelled by returning `none`). -/
def collectFirstGrades : List String → List Enrollment → Option (List ℚ)
  | [], _ => some []
  | s :: rest, enrs =>
    ((enrs.find? (fun e => e.subject == s)).bind (fun e => e.pre_final)).bind
      (fun g => (collectFirstGrades rest enrs).map (fun gs => g :: gs))

/-- The body of `calculate_and_update_student_average` (signals.py lines
95-147) acting on the student's enrollments for the relevant academic year
(the caller filters by student and `teacher_class__academic_year`; the list
passed here is that filtered queryset).  First the set of required subjects
appearing among the enrollments is checked for completeness; then the grades
of the first enrollment per required subject are collected; the average is
defined only when exactly `len(REQUIRED_SUBJECTS)` grades were collected, as
`round(total / Decimal(len(grades)), 2)` (Python `round`, half-even). -/
def calcStudentAverage (enrs : List Enrollment) : Option ℚ :=
  let allPresent := REQUIRED_SUBJECTS.all (fun s => enrs.any (fun e => e.subject == s))
  let grades : List ℚ :=
    if allPresent then (collectFirstGrades REQUIRED_SUBJECTS enrs).getD [] else []
  if grades.length = REQUIRED_SUBJECTS.length then
    some (round2 (grades.sum / (grades.length : ℚ)))
  else none

theorem collectFirstGrades_length (ss : List String) (enrs : List Enrollment) :
    ∀ gs, collectFirstGrades ss enrs = some gs → gs.length = ss.length := by
  induction ss with
  | nil =>
    intro gs h
    simp only [collectFirstGrades, Option.some_inj] at h
    simp [← h]
  | cons s rest ih =>
    intro gs h
    simp only [collectFirstGrades, Option.bind_eq_some, Option.map_eq_some'] at h
    obtain ⟨g, _, gs0, hgs0, rfl⟩ := h
    simp [ih gs0 hgs0]

theorem collectFirstGrades_isSome (ss : List String) (enrs : List Enrollment) :
    (collectFirstGrades ss enrs).isSome ↔
      ∀ s ∈ ss, ((enrs.find? (fun e => e.subject == s)).bind (fun e => e.pre_final)).isSome := by
  induction ss with
  | nil => simp [collectFirstGrades]
  | cons s rest ih =>
    simp only [collectFirstGrades, List.mem_cons]
    constructor
    · intro h
      rw [Option.isSome_iff_exists] at h
      obtain ⟨gs, hgs⟩ := h
      simp only [Option.bind_eq_some, Option.map_eq_some'] at hgs
      obtain ⟨g, hg, gs0, hgs0, rfl⟩ := hgs
      intro x hx
      rcases hx with rfl | hx
      · obtain ⟨e, he, hp⟩ := hg
        rw [he]
        simp [hp]
      · exact (ih.mp (by rw [hgs0]; rfl)) x hx
    · intro h
      have hs := h s (Or.inl rfl)
      rw [Option.isSome_iff_exists] at hs
      obtain ⟨g, hg⟩ := hs
      have hrest := ih.mpr (fun x hx => h x (Or.inr hx))
      rw [Option.isSome_iff_exists] at hrest
      obtain ⟨gs0, hgs0⟩ := hrest
      simp [hg, hgs0]

theorem collectFirstGrades_present (ss : List String) (enrs : List Enrollment)
    (h : (collectFirstGrades ss enrs).isSome) :
    ss.all (fun s => enrs.any (fun e => e.subject == s)) := by
  rw [collectFirstGrades_isSome] at h
  rw [List.all_eq_true]
  intro s hs
  have := h s hs
  rw [Option.isSome_iff_exists] at this
  obtain ⟨g, hg⟩ := this
  simp only [Option.bind_eq_some] at hg
  obtain ⟨e, he, _⟩ := hg
  rw [List.any_eq_true]
  have hp := List.find?_some he
  exact ⟨e, List.mem_of_find?_eq_some he, hp⟩

/-- C2 counterexample input: all eight required subjects enrolled with
non-null pre_final 90, plus a SECOND "English" enrollment (pre_final 80) —
e.g. a finalized enrollment surviving from a previous section, which the
schema's (`student`, `teacher_class`) uniqueness does not forbid. -/
def c2Enrs : List Enrollment :=
  [{ id := 1, student := 1, subject := "Filipino", year := "2024-2025",
     q1 := none, q2 := none, q3 := none, q4 := none, pre_final := some 90, is_finalized := false },
   { id := 2, student := 1, subject := "English", year := "2024-2025",
     q1 := none, q2 := none, q3 := none, q4 := none, pre_final := some 90, is_finalized := false },
   { id := 3, student := 1, subject := "English", year := "2024-2025",
     q1 := none, q2 := none, q3 := none, q4 := none, pre_final := some 80, is_finalized := true },
   { id := 4, student := 1, subject := "Mathematics", year := "2024-2025",
     q1 := none, q2 := none, q3 := none, q4 := none, pre_final := some 90, is_finalized := false },
   { id := 5, student := 1, subject := "Science", year := "2024-2025",
     q1 := none, q2 := none, q3 := none, q4 := none, pre_final := some 90, is_finalized := false },
   { id := 6, student := 1, subject := "Araling Panlipunan (AP)", year := "2024-2025",
     q1 := none, q2 := none, q3 := none, q4 := none, pre_final := some 90, is_finalized := false },
   { id := 7, student := 1, subject := "Edukasyon sa Pagpapakatao (EsP)", year := "2024-2025",
     q1 := none, q2 := none, q3 := none, q4 := none, pre_final := some 90, is_finalized := false },
   { id := 8, student := 1, subject := "Technology and Livelihood Education (TLE)", year := "2024-2025",
     q1 := none, q2 := none, q3 := none, q4 := none, pre_final := some 90, is_finalized := false },
   { id := 9, student := 1, subject := "MAPEH", year := "2024-2025",
     q1 := none, q2 := none, q3 := none, q4 := none, pre_final := some 90, is_finalized := false }]

/-- C2: the claim requires the average to be defined only when every required
subject has EXACTLY ONE enrollment with a non-null pre_final; but with two
"English" enrollments (both with non-null pre_final) the code still computes
an average, silently using the first one. -/
theorem C2_general_average_counterexample :
    (c2Enrs.filter (fun e => e.subject == "English")).length = 2 ∧
    (∀ e ∈ c2Enrs, e.pre_final.isSome) ∧
    calcStudentAverage c2Enrs = some 90 := by
  refine ⟨by decide, by decide, ?_⟩
  have hc : collectFirstGrades REQUIRED_SUBJECTS c2Enrs =
      some [90, 90, 90, 90, 90, 90, 90, 90] := by
    with_unfolding_all rfl
  have hall : REQUIRED_SUBJECTS.all (fun s => c2Enrs.any (fun e => e.subject == s)) = true := by
    decide
  simp only [calcStudentAverage, hall, if_true, hc, Option.getD_some]
  norm_num [REQUIRED_SUBJECTS, round2, halfEvenInt]

/-- C2 (amended): the recomputed general average is defined iff every
required subject appears among the student's enrollments for the relevant
academic year and the FIRST enrollment bearing each required subject has a
non-null `pre_final`; when defined it equals the mean of those first
pre-finals rounded (half-even) to 2 decimal places.  A required subject with
several enrollments does not make the average undefined: the first one in
query order is used and the rest are ignored. -/
theorem C2_general_average (enrs : List Enrollment) :
    ((calcStudentAverage enrs).isSome ↔
      ∀ s ∈ REQUIRED_SUBJECTS,
        ∃ e, enrs.find? (fun x => x.subject == s) = some e ∧ e.pre_final.isSome) ∧
    (∀ gs : List ℚ, collectFirstGrades REQUIRED_SUBJECTS enrs = some gs →
      calcStudentAverage enrs = some (round2 (gs.sum / 8))) := by
  have hiff : (∀ s ∈ REQUIRED_SUBJECTS,
      ∃ e, enrs.find? (fun x => x.subject == s) = some e ∧ e.pre_final.isSome) ↔
      (collectFirstGrades REQUIRED_SUBJECTS enrs).isSome := by
    rw [collectFirstGrades_isSome]
    constructor
    · intro h s hs
      obtain ⟨e, he, hp⟩ := h s hs
      rw [Option.isSome_iff_exists] at hp
      obtain ⟨g, hg⟩ := hp
      simp [he, hg]
    · intro h s hs
      have := h s hs
      rw [Option.isSome_iff_exists] at this
      obtain ⟨g, hg⟩ := this
      simp only [Option.bind_eq_some] at hg
      obtain ⟨e, he, hp⟩ := hg
      exact ⟨e, he, by simp [hp]⟩
  constructor
  · rw [hiff]
    constructor
    · intro h
      by_contra hnone
      rw [Option.not_isSome_iff_eq_none] at hnone
      simp only [calcStudentAverage, hnone, Option.getD_none, ite_self] at h
      simp [REQUIRED_SUBJECTS] at h
    · intro h
      rw [Option.isSome_iff_exists] at h
      obtain ⟨gs, hgs⟩ := h
      have hlen := collectFirstGrades_length _ _ _ hgs
      have hall := collectFirstGrades_present REQUIRED_SUBJECTS enrs (by simp [hgs])
      simp [calcStudentAverage, hall, hgs, hlen]
  · intro gs hgs
    have hlen := collectFirstGrades_length _ _ _ hgs
    have hall := collectFirstGrades_present REQUIRED_SUBJECTS enrs (by simp [hgs])
    have hlen8 : gs.length = 8 := by simp [hlen, REQUIRED_SUBJECTS]
    simp only [calcStudentAverage, hall, if_true, hgs, Option.getD_some, hlen]
    norm_num [REQUIRED_SUBJECTS]

/-- C2 witness: with the counterexample enrollments (one grade 90 per
required subject, first "English" taken) the average evaluates through the
theorem to round2 of 720/8. -/
theorem C2_general_average_witness :
    calcStudentAverage c2Enrs = some (round2 (([90, 90, 90, 90, 90, 90, 90, 90] : List ℚ).sum / 8)) :=
  (C2_general_average c2Enrs).2 [90, 90, 90, 90, 90, 90, 90, 90] (by
    with_unfolding_all rfl)

/-- The helper `_calculate_enrollment_final` (serializers.py lines 111-132):
collect the non-null quarters (in order q1..q4, each converted exactly to
`Decimal`), return `None` if there are none, otherwise the average of the
collected grades rounded to an integer with `to_integral_value(ROUND_HALF_UP)`.
This is the `final_grade` / `final` value exposed by `EnrollmentSerializer`
and `Sf10GradeSerializer`. -/
def calculateEnrollmentFinal (e : Enrollment) : Option ℤ :=
  let grades := (quarterList e).filterMap id
  if grades.isEmpty then none
  else some (roundHalfUpInt (grades.sum / (grades.length : ℚ)))

/-- C10: the API `final_grade` is computed by `_calculate_enrollment_final`,
not from the persisted `pre_final`: it is defined as soon as at least one
quarter is non-null, equals the mean of the non-null quarters rounded half-up
to an integer, and an enrollment with incomplete quarters (here: only
q1 = 90) has final_grade 90 while the recomputed `pre_final` is null on
every save path (for every quarter-attribute type environment). -/
theorem C10_final_grade (e : Enrollment) :
    ((calculateEnrollmentFinal e).isSome ↔
      e.q1.isSome ∨ e.q2.isSome ∨ e.q3.isSome ∨ e.q4.isSome) ∧
    ((quarterList e).filterMap id ≠ [] →
      calculateEnrollmentFinal e =
        some (roundHalfUpInt (((quarterList e).filterMap id).sum /
          (((quarterList e).filterMap id).length : ℚ)))) ∧
    (calculateEnrollmentFinal
        { id := 100, student := 1, subject := "Science", year := "2024-2025",
          q1 := some 90, q2 := none, q3 := none, q4 := none,
          pre_final := none, is_finalized := false } = some 90 ∧
      ∀ ks : QuarterKinds, computePreFinal
        { id := 100, student := 1, subject := "Science", year := "2024-2025",
          q1 := some 90, q2 := none, q3 := none, q4 := none,
          pre_final := none, is_finalized := false } ks = none) := by
  refine ⟨?_, ?_, ?_, ?_⟩
  · rcases h1 : e.q1 with _ | a <;> rcases h2 : e.q2 with _ | b <;>
      rcases h3 : e.q3 with _ | c <;> rcases h4 : e.q4 with _ | d <;>
      simp [calculateEnrollmentFinal, quarterList, h1, h2, h3, h4]
  · intro hne
    simp only [calculateEnrollmentFinal]
    rw [if_neg (by simpa [List.isEmpty_iff] using hne)]
  · simp only [calculateEnrollmentFinal, quarterList, List.filterMap_cons, id]
    norm_num [roundHalfUpInt]
  · intro ks
    simp [computePreFinal, quarterList]

/-- C10 witness: at quarters (90, 85, none, none) the final grade is the
half-up-rounded mean of the two non-null quarters, i.e. 88 rounded from 87.5. -/
theorem C10_final_grade_witness :
    calculateEnrollmentFinal
      { id := 101, student := 1, subject := "Science", year := "2024-2025",
        q1 := some 90, q2 := some 85, q3 := none, q4 := none,
        pre_final := none, is_finalized := false } =
      some (roundHalfUpInt ((([90, 85] : List ℚ)).sum / ((([90, 85] : List ℚ)).length : ℚ))) :=
  (C10_final_grade _).2.1 (by with_unfolding_all decide)

/-- The seven core learning areas of `StudentSf10Serializer.get_general_average`
(serializers.py lines 526-529). -/
def coreLearningAreas : List String :=
  ["Filipino", "English", "Mathematics", "Science", "Araling Panlipunan (AP)",
   "Edukasyon sa Pagpapakatao (EsP)", "Technology and Livelihood Education (TLE)"]

/-- The MAPEH component subjects (serializers.py line 530). -/
def mapehComponents : List String := ["Music", "Arts", "Physical Education", "Health"]

/-- The collection loop of `get_general_average` (serializers.py lines
538-550): walk the current enrollments in order; skip those whose final grade
is undefined; sort each final into `core_finals` or `mapeh_finals` according
to its subject name (subjects in neither list are ignored). -/
def sf10Collect : List Enrollment → List ℚ × List ℚ → List ℚ × List ℚ
  | [], acc => acc
  | e :: rest, acc =>
    match calculateEnrollmentFinal e with
    | none => sf10Collect rest acc
    | some g =>
      if coreLearningAreas.contains e.subject then
        sf10Collect rest (acc.1 ++ [(g : ℚ)], acc.2)
      else if mapehComponents.contains e.subject then
        sf10Collect rest (acc.1, acc.2 ++ [(g : ℚ)])
      else sf10Collect rest acc

/-- Serializer method `StudentSf10Serializer.get_general_average` (serializers.py lines
522-561): filter the student's enrollments to the current school year, collect
core and MAPEH finals, append (only if there are MAPEH finals) the MAPEH
average rounded half-up to an integer as one synthetic rating, and return the
mean of all ratings rounded with Python `round(·, 2)` — `None` if there are no
ratings at all. -/
def sf10GeneralAverage (enrs : List Enrollment) (schoolYear : String) : Option ℚ :=
  let cur := enrs.filter (fun e => e.year == schoolYear)
  let finals := sf10Collect cur ([], [])
  let allRatings :=
    if finals.2.isEmpty then finals.1
    else finals.1 ++ [((roundHalfUpInt (finals.2.sum / (finals.2.length : ℚ)) : ℤ) : ℚ)]
  if allRatings.isEmpty then none
  else some (round2 (allRatings.sum / (allRatings.length : ℚ)))

/-- Mean of a list of rationals, for stating the specification. -/
def listMean (xs : List ℚ) : ℚ := xs.sum / (xs.length : ℚ)

/-- Stated from the claim's wording, for comparison with the code: the MAPEH
component finals are averaged among themselves and rounded half-up to an
INTEGER, forming one synthetic subject score; that integer is folded with the
core finals into the overall mean, which is rounded to 2 decimal places. -/
def sf10SpecAverage (coreFinals mapehFinals : List ℚ) : ℚ :=
  round2 (listMean (coreFinals ++ [((roundHalfUpInt (listMean mapehFinals) : ℤ) : ℚ)]))

/-- C3: whenever at least one MAPEH component has a defined final grade, the
transcript general average computed by the code equals the claim's two-tier
formula: the MAPEH cluster is rounded half-up to an integer before being
folded with the core finals, and only the overall mean is rounded to 2
decimal places. -/
theorem C3_sf10_two_tier_rounding (enrs : List Enrollment) (y : String)
    (h : (sf10Collect (enrs.filter (fun e => e.year == y)) ([], [])).2 ≠ []) :
    sf10GeneralAverage enrs y =
      some (sf10SpecAverage
        (sf10Collect (enrs.filter (fun e => e.year == y)) ([], [])).1
        (sf10Collect (enrs.filter (fun e => e.year == y)) ([], [])).2) := by
  simp [sf10GeneralAverage, sf10SpecAverage, listMean, List.isEmpty_iff, h]

/-- C3 witness input: one core subject (quarters all 90) and one MAPEH
component "Music" (quarters all 85) in the current school year. -/
def c3Enrs : List Enrollment :=
  [{ id := 1, student := 1, subject := "English", year := "2024-2025",
     q1 := some 90, q2 := some 90, q3 := some 90, q4 := some 90,
     pre_final := none, is_finalized := false },
   { id := 2, student := 1, subject := "Music", year := "2024-2025",
     q1 := some 85, q2 := some 85, q3 := some 85, q4 := some 85,
     pre_final := none, is_finalized := false }]

/-- C3 witness: the theorem applied to `c3Enrs`. -/
theorem C3_sf10_two_tier_rounding_witness :
    sf10GeneralAverage c3Enrs "2024-2025" =
      some (sf10SpecAverage
        (sf10Collect (c3Enrs.filter (fun e => e.year == "2024-2025")) ([], [])).1
        (sf10Collect (c3Enrs.filter (fun e => e.year == "2024-2025")) ([], [])).2) :=
  C3_sf10_two_tier_rounding c3Enrs "2024-2025" (by with_unfolding_all decide)

/-- A `TeacherClass` row (students/models.py): one subject taught to one
section in one academic year. -/
structure TeacherClass where
  id : Nat
  subject : String
  sectionId : Nat
  year : String
deriving DecidableEq, Repr

/-- The relational shape of an `Enrollment` row needed by the auto-enrollment
signal: the (student, teacher_class) join plus the `is_finalized` flag
(quarter scores do not participate in `auto_enroll_student_in_classes`). -/
structure ClassEnrollment where
  student : Nat
  teacherClass : Nat
  is_finalized : Bool
deriving DecidableEq, Repr

/-- The `auto_enroll_student_in_classes` post-save signal (models.py lines
445-493): with a section assigned, enroll the student in every `TeacherClass`
of that section not already present, then delete the student's non-finalized
enrollments whose class is not among the section's classes; with no section,
delete all the student's non-finalized enrollments.  The returned list is the
enrollment table after the signal. -/
def autoEnrollStudentInClasses (classes : List TeacherClass) (enrs : List ClassEnrollment)
    (sid : Nat) (sectionId : Option Nat) : List ClassEnrollment :=
  match sectionId with
  | some b =>
    let classesToEnroll := classes.filter (fun tc => tc.sectionId == b)
    let currentIds := (enrs.filter (fun e => e.student == sid)).map (fun e => e.teacherClass)
    let newEnrs := (classesToEnroll.filter (fun tc => !(currentIds.contains tc.id))).map
      (fun tc => { student := sid, teacherClass := tc.id, is_finalized := false })
    let newIds := classesToEnroll.map (fun tc => tc.id)
    enrs.filter (fun e => !(e.student == sid) || newIds.contains e.teacherClass || e.is_finalized)
      ++ newEnrs
  | none => enrs.filter (fun e => !(e.student == sid) || e.is_finalized)

/-- C4: after reassigning a student to section B, (1) the student has an
enrollment in every `TeacherClass` of B (created when absent), (2) every
non-finalized enrollment of the student in a class that is not one of B's
classes is gone, and (3) every finalized enrollment persists unchanged. -/
theorem C4_section_reassignment (classes : List TeacherClass) (enrs : List ClassEnrollment)
    (sid b : Nat) :
    (∀ tc ∈ classes, tc.sectionId = b →
      ∃ e ∈ autoEnrollStudentInClasses classes enrs sid (some b),
        e.student = sid ∧ e.teacherClass = tc.id) ∧
    (∀ e ∈ enrs, e.student = sid → e.is_finalized = false →
      (∀ tc ∈ classes, tc.sectionId = b → tc.id ≠ e.teacherClass) →
      e ∉ autoEnrollStudentInClasses classes enrs sid (some b)) ∧
    (∀ e ∈ enrs, e.is_finalized = true →
      e ∈ autoEnrollStudentInClasses classes enrs sid (some b)) := by
  refine ⟨?_, ?_, ?_⟩
  · intro tc htc hsec
    simp only [autoEnrollStudentInClasses]
    by_cases hcur :
        ((enrs.filter (fun e => e.student == sid)).map (fun e => e.teacherClass)).contains tc.id
    · rw [List.contains_eq_any_beq, List.any_eq_true] at hcur
      obtain ⟨tcid, hmem, hbeq⟩ := hcur
      rw [List.mem_map] at hmem
      obtain ⟨e, hemem, rfl⟩ := hmem
      rw [List.mem_filter] at hemem
      obtain ⟨hein, hsid⟩ := hemem
      refine ⟨e, ?_, by simpa using hsid, by simpa using (eq_of_beq hbeq).symm⟩
      rw [List.mem_append]
      left
      rw [List.mem_filter]
      refine ⟨hein, ?_⟩
      simp only [Bool.or_eq_true]
      left; right
      rw [List.contains_eq_any_beq, List.any_eq_true]
      refine ⟨tc.id, ?_, by simpa using (eq_of_beq hbeq).symm⟩
      rw [List.mem_map]
      exact ⟨tc, by rw [List.mem_filter]; exact ⟨htc, by simpa using hsec⟩, rfl⟩
    · refine ⟨{ student := sid, teacherClass := tc.id, is_finalized := false }, ?_, rfl, rfl⟩
      rw [List.mem_append]
      right
      rw [List.mem_map]
      refine ⟨tc, ?_, rfl⟩
      rw [List.mem_filter]
      refine ⟨by rw [List.mem_filter]; exact ⟨htc, by simpa using hsec⟩, ?_⟩
      simpa using hcur
  · intro e hein hsid hfin hnotb hmem
    simp only [autoEnrollStudentInClasses, List.mem_append] at hmem
    rcases hmem with hmem | hmem
    · rw [List.mem_filter] at hmem
      obtain ⟨_, hp⟩ := hmem
      simp only [Bool.or_eq_true, Bool.not_eq_eq_eq_not, Bool.not_true] at hp
      rcases hp with (hp | hp) | hp
      · simp [hsid] at hp
      · rw [List.contains_eq_any_beq, List.any_eq_true] at hp
        obtain ⟨y, hy, hbeq⟩ := hp
        rw [List.mem_map] at hy
        obtain ⟨tc, htc, rfl⟩ := hy
        rw [List.mem_filter] at htc
        exact hnotb tc htc.1 (by simpa using htc.2) (eq_of_beq hbeq).symm
      · rw [hfin] at hp; exact Bool.false_ne_true hp
    · rw [List.mem_map] at hmem
      obtain ⟨tc, htc, heq⟩ := hmem
      rw [List.mem_filter] at htc
      obtain ⟨htc1, _⟩ := htc
      rw [List.mem_filter] at htc1
      have : tc.id = e.teacherClass := by rw [← heq]
      exact hnotb tc htc1.1 (by simpa using htc1.2) this
  · intro e hein hfin
    simp only [autoEnrollStudentInClasses, List.mem_append]
    left
    rw [List.mem_filter]
    exact ⟨hein, by simp [hfin]⟩

/-- C4 witness classes: class 1 belongs to section 2 (the new section B),
class 2 belongs to section 1 (the old section A), class 3 belongs to
section 1 as well. -/
def c4Classes : List TeacherClass :=
  [{ id := 1, subject := "Mathematics", sectionId := 2, year := "2024-2025" },
   { id := 2, subject := "English", sectionId := 1, year := "2024-2025" },
   { id := 3, subject := "Science", sectionId := 1, year := "2024-2025" }]

/-- C4 witness enrollments: student 1 is enrolled non-finalized in class 2
and finalized in class 3, both of old section 1. -/
def c4Enrs : List ClassEnrollment :=
  [{ student := 1, teacherClass := 2, is_finalized := false },
   { student := 1, teacherClass := 3, is_finalized := true }]

/-- C4 witness: reassigning student 1 to section 2 creates an enrollment in
class 1, deletes the non-finalized enrollment in class 2, and keeps the
finalized enrollment in class 3. -/
theorem C4_section_reassignment_witness :
    (∃ e ∈ autoEnrollStudentInClasses c4Classes c4Enrs 1 (some 2),
      e.student = 1 ∧ e.teacherClass = 1) ∧
    ({ student := 1, teacherClass := 2, is_finalized := false } : ClassEnrollment) ∉
      autoEnrollStudentInClasses c4Classes c4Enrs 1 (some 2) ∧
    ({ student := 1, teacherClass := 3, is_finalized := true } : ClassEnrollment) ∈
      autoEnrollStudentInClasses c4Classes c4Enrs 1 (some 2) := by
  have h := C4_section_reassignment c4Classes c4Enrs 1 2
  exact ⟨h.1 { id := 1, subject := "Mathematics", sectionId := 2, year := "2024-2025" }
      (by decide) rfl,
    h.2.1 { student := 1, teacherClass := 2, is_finalized := false } (by decide) rfl rfl
      (by decide),
    h.2.2 { student := 1, teacherClass := 3, is_finalized := true } (by decide) rfl⟩

/-- The user roles of `UserProfile.ROLE_CHOICES` (models.py lines 30-36),
plus `noProfile` for a request user without a profile row
(`UserProfile.DoesNotExist` is caught and treated as non-privileged). -/
inductive Role
  | teacher
  | registrar
  | nurse
  | guidanceCounselor
  | admin
  | noProfile
deriving DecidableEq, Repr

/-- The privilege test `user.profile.role in ['admin', 'registrar']` used by
the enrollment views (views.py lines 505-509, 554-558). -/
def isAdminOrRegistrar (r : Role) : Bool :=
  r == Role.admin || r == Role.registrar

/-- The global quarter-lock switches, `GradeSettings` (models.py lines
412-432). -/
structure GradeSettings where
  q1_open : Bool
  q2_open : Bool
  q3_open : Bool
  q4_open : Bool
deriving DecidableEq, Repr

/-- Which quarter fields appear in the body of an update request
(`field in request_data`, views.py line 523). -/
structure RequestData where
  hasQ1 : Bool
  hasQ2 : Bool
  hasQ3 : Bool
  hasQ4 : Bool
deriving DecidableEq, Repr

/-- Outcome of a permission check: `ok` or `PermissionDenied` with the
message raised. -/
inductive CheckResult
  | ok
  | permissionDenied (msg : String)
deriving DecidableEq, Repr

/-- View method `EnrollmentRetrieveUpdateDestroyView._check_finalized_and_lock_status`
(views.py lines 502-527): a finalized record rejects non-privileged actors
before any lock logic; non-privileged actors additionally need the
`GradeSettings` row to exist and every quarter named in the request body to
be open (checked in order q1..q4); admin/registrar skip everything. -/
def checkFinalizedAndLockStatus (role : Role) (finalized : Bool)
    (settings : Option GradeSettings) (req : RequestData) : CheckResult :=
  let priv := isAdminOrRegistrar role
  if finalized && !priv then
    .permissionDenied "Cannot modify or delete a finalized grade record."
  else if !priv then
    match settings with
    | none => .permissionDenied "Grade settings not configured. Please contact the administrator."
    | some g =>
      if req.hasQ1 && !g.q1_open then
        .permissionDenied "Quarter Q1 is currently locked by the administrator."
      else if req.hasQ2 && !g.q2_open then
        .permissionDenied "Quarter Q2 is currently locked by the administrator."
      else if req.hasQ3 && !g.q3_open then
        .permissionDenied "Quarter Q3 is currently locked by the administrator."
      else if req.hasQ4 && !g.q4_open then
        .permissionDenied "Quarter Q4 is currently locked by the administrator."
      else .ok
  else .ok

/-- The `update` method of the enrollment detail view (views.py lines
531-550): run the finalized/lock check; on failure the exception propagates
and the stored record is untouched, on success the validated changes are
applied and saved. -/
def updateEnrollment (role : Role) (settings : Option GradeSettings) (req : RequestData)
    (record : Enrollment) (applyChanges : Enrollment → Enrollment) :
    CheckResult × Enrollment :=
  match checkFinalizedAndLockStatus role record.is_finalized settings req with
  | .ok => (.ok, applyChanges record)
  | .permissionDenied m => (.permissionDenied m, record)

/-- The `destroy` method (views.py lines 551-562): a finalized record may be
deleted only by admin/registrar; the check consults no quarter locks.  The
second component is the stored row after the request (`none` = deleted). -/
def destroyEnrollment (role : Role) (record : Enrollment) :
    CheckResult × Option Enrollment :=
  if record.is_finalized && !(isAdminOrRegistrar role) then
    (.permissionDenied "Cannot modify or delete a finalized grade record.", some record)
  else (.ok, none)

/-- C5: updates and deletes of a finalized enrollment by a non-admin,
non-registrar actor fail with a permission error and leave the record
unchanged, for every quarter-lock configuration (present or absent, open or
closed); an admin or registrar is never blocked by the finalized flag (the
check passes and a delete succeeds regardless of it). -/
theorem C5_finalized_protection (role : Role) (settings : Option GradeSettings)
    (req : RequestData) (record : Enrollment) (applyChanges : Enrollment → Enrollment)
    (hfin : record.is_finalized = true) (hpriv : isAdminOrRegistrar role = false) :
    ((updateEnrollment role settings req record applyChanges).1 =
        CheckResult.permissionDenied "Cannot modify or delete a finalized grade record." ∧
      (updateEnrollment role settings req record applyChanges).2 = record) ∧
    ((destroyEnrollment role record).1 =
        CheckResult.permissionDenied "Cannot modify or delete a finalized grade record." ∧
      (destroyEnrollment role record).2 = some record) ∧
    (∀ role2 : Role, isAdminOrRegistrar role2 = true →
      checkFinalizedAndLockStatus role2 record.is_finalized settings req = CheckResult.ok ∧
      (destroyEnrollment role2 record).1 = CheckResult.ok) := by
  refine ⟨?_, ?_, ?_⟩
  · have hc : checkFinalizedAndLockStatus role record.is_finalized settings req =
        CheckResult.permissionDenied "Cannot modify or delete a finalized grade record." := by
      simp [checkFinalizedAndLockStatus, hfin, hpriv]
    simp [updateEnrollment, hc]
  · simp [destroyEnrollment, hfin, hpriv]
  · intro role2 h2
    constructor
    · simp [checkFinalizedAndLockStatus, h2]
    · simp [destroyEnrollment, h2]

/-- C5 witness record: a finalized enrollment with complete quarters. -/
def c5Enr : Enrollment :=
  { id := 7, student := 3, subject := "Filipino", year := "2024-2025",
    q1 := some 90, q2 := some 91, q3 := some 92, q4 := some 93,
    pre_final := some (915/10), is_finalized := true }

/-- C5 witness: a teacher with ALL four quarter locks open still cannot
update or delete a finalized record, while a registrar's check passes. -/
theorem C5_finalized_protection_witness :
    ((updateEnrollment Role.teacher
        (some { q1_open := true, q2_open := true, q3_open := true, q4_open := true })
        { hasQ1 := true, hasQ2 := true, hasQ3 := true, hasQ4 := true }
        c5Enr id).1 =
        CheckResult.permissionDenied "Cannot modify or delete a finalized grade record." ∧
      (updateEnrollment Role.teacher
        (some { q1_open := true, q2_open := true, q3_open := true, q4_open := true })
        { hasQ1 := true, hasQ2 := true, hasQ3 := true, hasQ4 := true }
        c5Enr id).2 = c5Enr) ∧
    ((destroyEnrollment Role.teacher c5Enr).1 =
        CheckResult.permissionDenied "Cannot modify or delete a finalized grade record." ∧
      (destroyEnrollment Role.teacher c5Enr).2 = some c5Enr) ∧
    (∀ role2 : Role, isAdminOrRegistrar role2 = true →
      checkFinalizedAndLockStatus role2 c5Enr.is_finalized
        (some { q1_open := true, q2_open := true, q3_open := true, q4_open := true })
        { hasQ1 := true, hasQ2 := true, hasQ3 := true, hasQ4 := true } = CheckResult.ok ∧
      (destroyEnrollment role2 c5Enr).1 = CheckResult.ok) :=
  C5_finalized_protection Role.teacher
    (some { q1_open := true, q2_open := true, q3_open := true, q4_open := true })
    { hasQ1 := true, hasQ2 := true, hasQ3 := true, hasQ4 := true }
    c5Enr id rfl rfl

/-- A stored `GradeSettings` row: primary key plus the switches. -/
structure GradeSettingsRow where
  pk : Nat
  settings : GradeSettings
deriving DecidableEq, Repr

/-- Model method `GradeSettings.save` (models.py lines 427-432): creating (no primary key
yet) while a row exists raises `ValidationError`; otherwise the save goes
through.  An instance with a primary key is one previously read from the
database, so its save is an update of the matching row. -/
def gradeSettingsSave (db : List GradeSettingsRow) (pk : Option Nat)
    (s : GradeSettings) (newPk : Nat) : Except String (List GradeSettingsRow) :=
  match pk with
  | none =>
    if !db.isEmpty then
      .error "Cannot create more than one GradeSettings instance."
    else
      .ok (db ++ [{ pk := newPk, settings := s }])
  | some k => .ok (db.map (fun r => if r.pk == k then { pk := k, settings := s } else r))

/-- Endpoint `GradeSettingsViewSet.create` (views.py lines 610-614): requires
admin/registrar, rejects with HTTP 400 when a settings row already exists,
otherwise creates through the model save path. -/
def gradeSettingsCreate (role : Role) (db : List GradeSettingsRow)
    (s : GradeSettings) (newPk : Nat) : Except String (List GradeSettingsRow) :=
  if !(isAdminOrRegistrar role) then
    .error "You do not have permission to perform this action."
  else if !db.isEmpty then
    .error "Settings object already exists. Use PATCH to update."
  else gradeSettingsSave db none s newPk

/-- C6: while a `GradeSettings` row exists, creating a second one is rejected
by the model save path and by the create endpoint (for every role); saving
the existing instance (a save with a primary key) always succeeds and does
not change the number of rows; and every successful save from a state with
at most one row leaves at most one row. -/
theorem C6_singleton (db : List GradeSettingsRow) (s : GradeSettings) (newPk : Nat) :
    (db ≠ [] →
      (∃ m, gradeSettingsSave db none s newPk = Except.error m) ∧
      (∀ role : Role, ∃ m, gradeSettingsCreate role db s newPk = Except.error m)) ∧
    (∀ k, gradeSettingsSave db (some k) s newPk =
        Except.ok (db.map (fun r => if r.pk == k then { pk := k, settings := s } else r)) ∧
      ∀ db2, gradeSettingsSave db (some k) s newPk = Except.ok db2 →
        db2.length = db.length) ∧
    (db.length ≤ 1 → ∀ pk db2, gradeSettingsSave db pk s newPk = Except.ok db2 →
      db2.length ≤ 1) := by
  refine ⟨?_, ?_, ?_⟩
  · intro hne
    have hemp : db.isEmpty = false := by
      cases db with
      | nil => exact absurd rfl hne
      | cons a l => rfl
    constructor
    · exact ⟨"Cannot create more than one GradeSettings instance.",
        by simp [gradeSettingsSave, hemp]⟩
    · intro role
      by_cases hr : isAdminOrRegistrar role
      · exact ⟨"Settings object already exists. Use PATCH to update.",
          by simp [gradeSettingsCreate, hr, hemp]⟩
      · refine ⟨"You do not have permission to perform this action.", ?_⟩
        simp only [gradeSettingsCreate]
        rw [if_pos (by simp [hr])]
  · intro k
    refine ⟨rfl, ?_⟩
    intro db2 h
    simp only [gradeSettingsSave, Except.ok.injEq] at h
    simp [← h]
  · intro hlen pk db2 h
    cases pk with
    | none =>
      cases hdb : db with
      | nil =>
        rw [hdb] at h
        simp only [gradeSettingsSave, List.isEmpty_nil, Bool.not_true, Bool.false_eq_true,
          if_false, List.nil_append, Except.ok.injEq] at h
        simp [← h]
      | cons a l =>
        rw [hdb] at h
        simp [gradeSettingsSave] at h
    | some k =>
      simp only [gradeSettingsSave, Except.ok.injEq] at h
      rw [← h]
      simpa using hlen

/-- C6 witness: with one existing row, the save path and the create endpoint
(as admin) both reject a second instance, while updating the row succeeds and
keeps exactly one row. -/
theorem C6_singleton_witness :
    (∃ m, gradeSettingsSave
        [{ pk := 1, settings := { q1_open := true, q2_open := false, q3_open := false, q4_open := false } }]
        none { q1_open := false, q2_open := true, q3_open := false, q4_open := false } 2 =
        Except.error m) ∧
    (∃ m, gradeSettingsCreate Role.admin
        [{ pk := 1, settings := { q1_open := true, q2_open := false, q3_open := false, q4_open := false } }]
        { q1_open := false, q2_open := true, q3_open := false, q4_open := false } 2 =
        Except.error m) ∧
    gradeSettingsSave
        [{ pk := 1, settings := { q1_open := true, q2_open := false, q3_open := false, q4_open := false } }]
        (some 1) { q1_open := false, q2_open := true, q3_open := false, q4_open := false } 2 =
      Except.ok
        [{ pk := 1, settings := { q1_open := false, q2_open := true, q3_open := false, q4_open := false } }] := by
  have h := C6_singleton
    [{ pk := 1, settings := { q1_open := true, q2_open := false, q3_open := false, q4_open := false } }]
    { q1_open := false, q2_open := true, q3_open := false, q4_open := false } 2
  refine ⟨(h.1 (by decide)).1, (h.1 (by decide)).2 Role.admin, ?_⟩
  rw [(h.2.1 1).1]
  rfl

/-- A `Student` row as read by the dashboard: only the active flag matters. -/
structure StudentRow where
  id : Nat
  is_active : Bool
deriving DecidableEq, Repr

/-- A `ClinicVisit` row for the dashboard.  `visit_date` is a timestamp; with
`TIME_ZONE = 'UTC'` and `USE_TZ = True` (settings.py) both `timezone.now()`
and the `visit_date__date` lookup work in UTC, so the timestamp is modelled
as its UTC calendar day plus the time of day within it (in minutes). -/
structure ClinicVisitRow where
  id : Nat
  visitDay : Int
  visitMinute : Nat
deriving DecidableEq, Repr

/-- A `BehaviorRecord` row for the dashboard: only its existence matters. -/
structure BehaviorRow where
  id : Nat
deriving DecidableEq, Repr

/-- The dashboard snapshot returned by `dashboard_stats` (views.py lines
849-881) and `_get_sync_dashboard_stats` (signals.py lines 50-67); the
response key for the third count is `clinicVisits`. -/
structure DashboardStats where
  totalStudents : Nat
  activeRecords : Nat
  clinicVisits : Nat
  behavioralReports : Nat
deriving DecidableEq, Repr

/-- The dashboard computation, identical in `dashboard_stats` and
`_get_sync_dashboard_stats`: count of all students, count of students with
`is_active=True`, count of clinic visits whose `visit_date` has date
component equal to `timezone.now().date()` (`today`), count of all behavior
records.  No filtering by school year or section anywhere. -/
def dashboardStats (students : List StudentRow) (visits : List ClinicVisitRow)
    (behaviors : List BehaviorRow) (today : Int) : DashboardStats :=
  { totalStudents := students.length
    activeRecords := (students.filter (fun s => s.is_active)).length
    clinicVisits := (visits.filter (fun v => v.visitDay == today)).length
    behavioralReports := behaviors.length }

/-- C9: the snapshot equals exactly the four global counts — all students,
active students, visits dated today, all behavior records — and a visit whose
calendar day is not today contributes nothing to `clinicVisits` no matter its
time of day, while today's visits always count. -/
theorem C9_dashboard_stats (students : List StudentRow) (visits : List ClinicVisitRow)
    (behaviors : List BehaviorRow) (today : Int) :
    (dashboardStats students visits behaviors today =
      { totalStudents := students.length
        activeRecords := students.countP (fun s => s.is_active)
        clinicVisits := visits.countP (fun v => v.visitDay == today)
        behavioralReports := behaviors.length }) ∧
    (∀ v : ClinicVisitRow, v.visitDay ≠ today →
      (dashboardStats students (v :: visits) behaviors today).clinicVisits =
        (dashboardStats students visits behaviors today).clinicVisits) ∧
    (∀ v : ClinicVisitRow, v.visitDay = today →
      (dashboardStats students (v :: visits) behaviors today).clinicVisits =
        (dashboardStats students visits behaviors today).clinicVisits + 1) := by
  refine ⟨?_, ?_, ?_⟩
  · simp [dashboardStats, List.countP_eq_length_filter]
  · intro v hv
    simp only [dashboardStats, List.filter_cons]
    rw [if_neg (by simpa using hv)]
  · intro v hv
    simp only [dashboardStats, List.filter_cons]
    rw [if_pos (by simpa using hv)]
    simp [List.length_cons]

/-- C9 witness: one active and one inactive student, one visit yesterday
(day 99, late in the day) and one today (day 100), two behavior records; the
snapshot is (2, 1, 1, 2), and prepending another yesterday visit leaves
`clinicVisits` at 1 while prepending a today visit raises it to 2. -/
theorem C9_dashboard_stats_witness :
    (dashboardStats
        [{ id := 1, is_active := true }, { id := 2, is_active := false }]
        [{ id := 1, visitDay := 99, visitMinute := 1439 },
         { id := 2, visitDay := 100, visitMinute := 0 }]
        [{ id := 1 }, { id := 2 }] 100 =
      { totalStudents := 2, activeRecords := 1, clinicVisits := 1, behavioralReports := 2 }) ∧
    (dashboardStats
        [{ id := 1, is_active := true }, { id := 2, is_active := false }]
        ({ id := 3, visitDay := 99, visitMinute := 30 } ::
          [{ id := 1, visitDay := 99, visitMinute := 1439 },
           { id := 2, visitDay := 100, visitMinute := 0 }])
        [{ id := 1 }, { id := 2 }] 100).clinicVisits = 1 ∧
    (dashboardStats
        [{ id := 1, is_active := true }, { id := 2, is_active := false }]
        ({ id := 4, visitDay := 100, visitMinute := 30 } ::
          [{ id := 1, visitDay := 99, visitMinute := 1439 },
           { id := 2, visitDay := 100, visitMinute := 0 }])
        [{ id := 1 }, { id := 2 }] 100).clinicVisits = 2 := by
  have h := C9_dashboard_stats
    [{ id := 1, is_active := true }, { id := 2, is_active := false }]
    [{ id := 1, visitDay := 99, visitMinute := 1439 },
     { id := 2, visitDay := 100, visitMinute := 0 }]
    [{ id := 1 }, { id := 2 }] 100
  refine ⟨?_, ?_, ?_⟩
  · rw [h.1]; decide
  · rw [h.2.1 { id := 3, visitDay := 99, visitMinute := 30 } (by decide)]
    decide
  · rw [h.2.2 { id := 4, visitDay := 100, visitMinute := 30 } (by decide)]
    decide

/-- The state visible to `enrollment_post_save` for one student and one
academic year: the saved enrollment (`target`), the runtime types of the
in-memory quarter attributes of the triggering instance (`kinds` — Decimals
on admin/database-loaded saves, floats on API saves), the student's other
enrollments for that year, and the student's stored `general_average`.  The
query order of the enrollment list used by the average computation is
abstracted by putting the target first.  The nested dispatch triggered by
`instance.save(update_fields=['pre_final'])` receives the same in-memory
instance, hence the same `kinds`. -/
structure SignalState where
  target : Enrollment
  kinds : QuarterKinds
  others : List Enrollment
  genAvg : Option ℚ
deriving DecidableEq, Repr

/-- The enrollment list that `calculate_and_update_student_average` reads
back from the database. -/
def avgInput (st : SignalState) : List Enrollment := st.target :: st.others

/-- The freshly computed general average over the current database state. -/
def avgNew (st : SignalState) : Option ℚ := calcStudentAverage (avgInput st)

/-- The state after `calculate_and_update_student_average` (signals.py lines
135-140): the stored average is overwritten only when it differs from the
recomputed one. -/
def avgState (st : SignalState) : SignalState :=
  if st.genAvg ≠ avgNew st then { st with genAvg := avgNew st } else st

/-- Whether `calculate_and_update_student_average` performed a write
(`student.save(update_fields=['general_average'])`). -/
def avgWrote (st : SignalState) : Bool := decide (st.genAvg ≠ avgNew st)

/-- The value returned by `calculate_and_update_student_average`: the new
average when it was written, otherwise the (equal) stored one. -/
def avgReturn (st : SignalState) : Option ℚ :=
  if st.genAvg ≠ avgNew st then avgNew st else st.genAvg

/-- The websocket payload sent to the `student_{id}` group (signals.py lines
190-202): the serialized enrollment (whose `pre_final` field is the stored
one), the returned general average, and the action string. -/
structure WsMessage where
  enrollment : Enrollment
  general_average : Option ℚ
  action : String
deriving DecidableEq, Repr

/-- The action field: `"created" if created else "updated"`. -/
def mkAction (created : Bool) : String := if created then "created" else "updated"

/-- The observable outcome of one `enrollment_post_save` dispatch: final
database state, the messages sent (in order), and whether the handler wrote
`pre_final` resp. `general_average`. -/
structure PostSaveResult where
  state : SignalState
  messages : List WsMessage
  wrotePre : Bool
  wroteAvg : Bool
deriving DecidableEq, Repr

/-- Overwrite of the `pre_final` column
(`instance.save(update_fields=['pre_final'])`). -/
def setPre (e : Enrollment) (v : Option ℚ) : Enrollment := { e with pre_final := v }

/-- One run of the `enrollment_post_save` body in the consistent case, i.e.
when the stored `pre_final` already equals the recomputed one so that no
nested save is dispatched: the average is recomputed (and stored when
changed) and one message is emitted. -/
def postSaveConsistent (st : SignalState) (created : Bool) : PostSaveResult :=
  { state := avgState st
    messages := [{ enrollment := st.target, general_average := avgReturn st,
                   action := mkAction created }]
    wrotePre := false
    wroteAvg := avgWrote st }

/-- Handler `enrollment_post_save` (signals.py lines 150-202).  The
recomputed `pre_final` depends on the in-memory attribute types (`st.kinds`):
on API saves the float quarters make the try-block raise and the computed
value is `None`.  When the recomputed value differs from the stored one, the
handler writes it with `instance.save(update_fields=['pre_final'])` — and
Django dispatches `post_save` again for that save, re-running the whole
handler (with `created=False`, on the same in-memory instance with the same
attribute types) before the outer run resumes.  The nested run finds
`pre_final` consistent (the quarters and their types are untouched), so it
performs the average recomputation and emits its own message; the outer run
then recomputes the average again (a no-op), refreshes `pre_final` from the
database and emits its message. -/
def enrollmentPostSave (st : SignalState) (created : Bool) : PostSaveResult :=
  if st.target.pre_final ≠ computePreFinal st.target st.kinds then
    let st1 : SignalState := { st with target := setPre st.target (computePreFinal st.target st.kinds) }
    let nested := postSaveConsistent st1 false
    { state := avgState nested.state
      messages := nested.messages ++
        [{ enrollment := (avgState nested.state).target,
           general_average := avgReturn nested.state,
           action := mkAction created }]
      wrotePre := true
      wroteAvg := nested.wroteAvg || avgWrote nested.state }
  else postSaveConsistent st created

theorem computePreFinal_setPre (e : Enrollment) (v : Option ℚ) :
    computePreFinal (setPre e v) = computePreFinal e := rfl

/-- When the stored `pre_final` is already consistent, a dispatch of the full
handler is exactly the no-nested-save run: this justifies inlining the nested
dispatch in `enrollmentPostSave` as `postSaveConsistent`, because the state
passed to the nested dispatch always satisfies this hypothesis. -/
theorem enrollmentPostSave_of_consistent (st : SignalState) (created : Bool)
    (h : st.target.pre_final = computePreFinal st.target st.kinds) :
    enrollmentPostSave st created = postSaveConsistent st created := by
  unfold enrollmentPostSave
  rw [if_neg (by simpa using h)]

/-- The state written back to the database by the nested save is consistent,
so the nested dispatch really is the consistent run. -/
theorem nested_dispatch_consistent (st : SignalState) :
    enrollmentPostSave { st with target := setPre st.target (computePreFinal st.target st.kinds) } false =
      postSaveConsistent { st with target := setPre st.target (computePreFinal st.target st.kinds) } false :=
  enrollmentPostSave_of_consistent _ false (by rw [computePreFinal_setPre]; rfl)

theorem postSave_wrotePre (st : SignalState) (created : Bool) :
    (enrollmentPostSave st created).wrotePre =
      decide (st.target.pre_final ≠ computePreFinal st.target st.kinds) := by
  by_cases h : st.target.pre_final = computePreFinal st.target st.kinds
  · rw [enrollmentPostSave_of_consistent st created h]
    simp [postSaveConsistent, h]
  · unfold enrollmentPostSave
    rw [if_pos (by simpa using h)]
    simp [h]

end Eskwela
